import Mathlib

/-!
# Verification of the homebridge-sinum synchronization and control layer

A shallow embedding of `src/index.ts` (class `ExampleDynamicPlatform`).
The remote API and the host framework are external collaborators; their
behavior on one activation is captured by an `Env` value (the outcome of the
login call, of the device-directory call, of each command call, and the host
framework's deterministic uuid generator).  Each method of the class becomes a
pure function from an `Env` and the current tracked-accessory list to the new
list, an optional JavaScript runtime fault escaping the method, and the list
of observable effects (log lines, HTTP requests, host-framework calls) in
program order.
-/

namespace Sinum

/-- A device record from the remote directory: one element of the
`data.data.wtp` array of `GET /devices` (fields `id` and `name`). -/
structure RemoteDevice where
  id : Int
  name : String
  deriving Repr, DecidableEq

/-- An accessory as constructed by `addAccessory`: display name, uuid
generated by the host framework from the name, and `context.id` holding the
remote device id (`accessory.context = \x7b id \x7d`, index.ts line 119). -/
structure Accessory where
  displayName : String
  uuid : String
  contextId : Int
  deriving Repr, DecidableEq

/-- Observable effects of one run, in program order. -/
inductive Event where
  /-- `log.info` output. -/
  | logInfo (msg : String)
  /-- the `this.log("Configuring accessory %s", ...)` line. -/
  | logConfig (name : String)
  /-- `console.log` output. -/
  | consoleLog (msg : String)
  /-- `console.error` output. -/
  | consoleError (msg : String)
  /-- the `axios.post` of `/login` is issued. -/
  | postLogin
  /-- the `axios.get` of `/devices` is issued, with its Authorization header. -/
  | getReq (auth : String)
  /-- the `axios.patch` of `/devices/wtp/(deviceId)` is issued, carrying the
  requested state and its Authorization header. -/
  | patchReq (deviceId : Int) (state : Bool) (auth : String)
  /-- `api.registerPlatformAccessories` is invoked with this list. -/
  | registerAccs (accs : List Accessory)
  /-- `api.unregisterPlatformAccessories` is invoked with this list. -/
  | unregisterAccs (accs : List Accessory)
  /-- the host framework's `CharacteristicSetCallback` is invoked; `none`
  means it is called with no error argument (success acknowledgement). -/
  | hbCallback (err : Option String)
  deriving Repr, DecidableEq

/-- Outcome of the `axios.post` to `/login` performed by `signIn`. -/
inductive LoginOutcome where
  /-- success with a well-formed body: `data.data` is an object carrying this
  `session` credential. -/
  | ok (session : String)
  /-- success but the body is malformed so that evaluating `data.data` throws
  a TypeError inside the `try` block. -/
  | malformedBody
  /-- rejection with `axios.isAxiosError(err) && err.response`; the payload is
  `err.response.data` (e.g. the body of an HTTP 401). -/
  | httpError (respData : String)
  /-- rejection without a response object (transport error), or any other
  non-Axios failure. -/
  | transportError
  deriving Repr, DecidableEq

/-- Outcome of the `axios.get` of `/devices` performed by `getDevices`. -/
inductive DevicesOutcome where
  /-- success, `data.data.wtp` is this array. -/
  | ok (wtp : List RemoteDevice)
  /-- success but `data.data.wtp` is absent, so `.forEach` throws a TypeError
  inside the `try` block before any accessory is added. -/
  | missingWtp
  /-- rejection with `axios.isAxiosError(e) && e.response`. -/
  | httpError (respData : String)
  /-- rejection without a response object, or any other non-Axios failure. -/
  | transportError
  deriving Repr, DecidableEq

/-- Outcome of the `axios.patch` of `/devices/wtp/(id)` performed by
`toggleLight`, as a function of device id and requested state. -/
inductive PatchOutcome where
  /-- success; `data.data` prints as this string. -/
  | ok (echo : String)
  /-- rejection with a response; in `toggleLight` the catch block does not
  discriminate, so the payload is only used as the printed error. -/
  | httpError (respData : String)
  /-- rejection without a response object. -/
  | transportError
  deriving Repr, DecidableEq

/-- The external world for one activation: remote API behavior plus the host
framework's `hap.uuid.generate`, a deterministic function of the name. -/
structure Env where
  login : LoginOutcome
  devices : DevicesOutcome
  patch : Int → Bool → PatchOutcome
  uuidGen : String → String

/-- A JavaScript runtime fault escaping a method of the class.  The only one
arising in this code is the TypeError thrown by destructuring the `undefined`
that `signIn` returns after a caught failure. -/
inductive JsError where
  | typeError
  deriving Repr, DecidableEq

/-- `signIn` (index.ts lines 167-180): posts `/login`; on success returns
`data.data` (modelled by its `session` field); on failure logs
`err.response.data` only when the error is an Axios error with a response,
and returns `undefined` (modelled as `none`) in every failure case. -/
def signIn (env : Env) : Option String × List Event :=
  match env.login with
  | .ok session => (some session, [.postLogin])
  | .malformedBody => (none, [.postLogin])
  | .httpError respData => (none, [.postLogin, .consoleLog respData])
  | .transportError => (none, [.postLogin])

/-- `mkAccessory`: the accessory object built in `addAccessory` lines 116-121
(`new Accessory(name, hap.uuid.generate(name))` with `context = \x7b id \x7d`). -/
def mkAccessory (uuidGen : String → String) (name : String) (id : Int) :
    Accessory :=
  { displayName := name, uuid := uuidGen name, contextId := id }

/-- `configureAccessory` (index.ts lines 89-108): logs, wires the identify and
set handlers (the set handler is modelled by `onSetEvent` below), and appends
the accessory to `this.accessories`. -/
def configureAccessory (acc : Accessory) (accs : List Accessory) :
    List Accessory × List Event :=
  (accs ++ [acc], [.logConfig acc.displayName])

/-- `addAccessory` (index.ts lines 112-128): logs, builds the accessory,
reuses `configureAccessory` to wire handlers and push it, then registers it
with the host framework. -/
def addAccessory (env : Env) (name : String) (id : Int)
    (accs : List Accessory) : List Accessory × List Event :=
  let acc := mkAccessory env.uuidGen name id
  let r := configureAccessory acc accs
  (r.1, .logInfo ("Adding new accessory with name " ++ name) :: r.2
    ++ [.registerAccs [acc]])

/-- `removeAccessories` (index.ts lines 130-141): unregisters every tracked
accessory from the host framework, then clears the array with `splice`. -/
def removeAccessories (accs : List Accessory) :
    List Accessory × List Event :=
  ([], [.logInfo "Removing all accessories", .unregisterAccs accs])

/-- The `data.data.wtp.forEach((element) => this.addAccessory(...))` loop of
`getDevices` (index.ts lines 194-196), in array order. -/
def addAllDevices (env : Env) (ds : List RemoteDevice)
    (accs : List Accessory) : List Accessory × List Event :=
  match ds with
  | [] => (accs, [])
  | d :: rest =>
    let r := addAccessory env d.name d.id accs
    let r2 := addAllDevices env rest r.1
    (r2.1, r.2 ++ r2.2)

/-- `getDevices` (index.ts lines 182-202): `const user = await this.signIn();
const \x7b session \x7d = user;` — when `signIn` returned `undefined` this
destructuring throws a TypeError outside any `try` block.  Otherwise it gets
`/devices` and adds one accessory per `data.data.wtp` element; a caught
failure logs `e.response.data` only for an Axios error with a response. -/
def getDevices (env : Env) (accs : List Accessory) :
    List Accessory × Option JsError × List Event :=
  let s := signIn env
  match s.1 with
  | none => (accs, some .typeError, s.2)
  | some session =>
    match env.devices with
    | .ok wtp =>
      let r := addAllDevices env wtp accs
      (r.1, none, s.2 ++ [.getReq session] ++ r.2)
    | .missingWtp => (accs, none, s.2 ++ [.getReq session])
    | .httpError respData =>
      (accs, none, s.2 ++ [.getReq session, .consoleLog respData])
    | .transportError => (accs, none, s.2 ++ [.getReq session])

/-- `toggleLight` (index.ts lines 143-165): `const \x7b session \x7d = await
this.signIn();` — throws a TypeError when `signIn` returned `undefined`.
Otherwise prints the session, patches `/devices/wtp/(context.id)` with the
requested state, prints `data.data` on success, and on any caught failure
logs the error unconditionally with `console.error`. -/
def toggleLight (env : Env) (acc : Accessory) (value : Bool) :
    Option JsError × List Event :=
  let s := signIn env
  match s.1 with
  | none => (some .typeError, s.2)
  | some session =>
    let ev := s.2 ++ [.consoleLog session]
    match env.patch acc.contextId value with
    | .ok echo =>
      (none, ev ++ [.patchReq acc.contextId value session, .consoleLog echo])
    | .httpError respData =>
      (none,
        ev ++ [.patchReq acc.contextId value session, .consoleError respData])
    | .transportError =>
      (none, ev ++ [.patchReq acc.contextId value session,
        .consoleError "transport error"])

/-- The set-characteristic handler installed by `configureAccessory`
(index.ts lines 99-105): it fires `this.toggleLight(accessory, value)` without
awaiting it and then invokes `callback()` with no error argument.  The first
component is the fate of the fire-and-forget promise (its rejection never
reaches the handler or the callback); the events of the asynchronous task are
serialized before the callback event, and every property proved about this
function (occurrence counts, the callback's unconditional presence and
error-free payload) is independent of the actual interleaving. -/
def onSetEvent (env : Env) (acc : Accessory) (value : Bool) :
    Option JsError × List Event :=
  let r := toggleLight env acc value
  (r.1, r.2 ++ [.hbCallback none])

/-- The `DID_FINISH_LAUNCHING` listener (index.ts lines 75-82): logs, runs
`removeAccessories()` synchronously, then starts `getDevices()`. -/
def didFinishLaunching (env : Env) (accs : List Accessory) :
    List Accessory × Option JsError × List Event :=
  let r := removeAccessories accs
  let g := getDevices env r.1
  (g.1, g.2.1, .logInfo "Example platform didFinishLaunching" :: r.2 ++ g.2.2)

/-! ## Event counting helpers -/

/-- Number of events satisfying a predicate. -/
def countE (p : Event → Bool) (evs : List Event) : Nat :=
  (evs.filter p).length

/-- The event is the login POST. -/
def isLoginCall : Event → Bool
  | .postLogin => true
  | _ => false

/-- The event is the device-directory GET. -/
def isGetCall : Event → Bool
  | .getReq _ => true
  | _ => false

/-- The event is a command PATCH. -/
def isPatchCall : Event → Bool
  | .patchReq _ _ _ => true
  | _ => false

/-- The event is a command PATCH for this device id and state. -/
def isPatchTo (deviceId : Int) (state : Bool) : Event → Bool
  | .patchReq i s _ => i == deviceId && s == state
  | _ => false

/-- The event is any console output (`console.log` or `console.error`). -/
def isConsoleOut : Event → Bool
  | .consoleLog _ => true
  | .consoleError _ => true
  | _ => false

/-- The event is a `console.error`. -/
def isConsoleErr : Event → Bool
  | .consoleError _ => true
  | _ => false

/-- The event is an invocation of the host framework's completion callback. -/
def isCallbackE : Event → Bool
  | .hbCallback _ => true
  | _ => false

/-! ## Helper lemmas -/

@[simp] theorem countE_nil (p : Event → Bool) : countE p [] = 0 := rfl

@[simp] theorem countE_cons (p : Event → Bool) (e : Event)
    (evs : List Event) :
    countE p (e :: evs) = (if p e then 1 else 0) + countE p evs := by
  by_cases h : p e
  · simp [countE, List.filter_cons, h]
    omega
  · simp [countE, List.filter_cons, h]

@[simp] theorem countE_append (p : Event → Bool) (a b : List Event) :
    countE p (a ++ b) = countE p a + countE p b := by
  simp [countE, List.filter_append]

theorem addAllDevices_state (env : Env) (ds : List RemoteDevice)
    (accs : List Accessory) :
    (addAllDevices env ds accs).1
      = accs ++ ds.map (fun d => mkAccessory env.uuidGen d.name d.id) := by
  induction ds generalizing accs with
  | nil => simp [addAllDevices]
  | cons d rest ih =>
    simp [addAllDevices, addAccessory, configureAccessory, ih]

theorem addAllDevices_no_login (env : Env) (ds : List RemoteDevice)
    (accs : List Accessory) :
    countE isLoginCall (addAllDevices env ds accs).2 = 0 := by
  induction ds generalizing accs with
  | nil => rfl
  | cons d rest ih =>
    rw [show (addAllDevices env (d :: rest) accs).2
        = (addAccessory env d.name d.id accs).2
          ++ (addAllDevices env rest
              (addAccessory env d.name d.id accs).1).2 from rfl,
      countE_append, ih]
    rfl

theorem getDevices_state_extends (env : Env) (accs : List Accessory) :
    ∃ suffix, (getDevices env accs).1 = accs ++ suffix := by
  cases hl : env.login with
  | ok s =>
    cases hd : env.devices with
    | ok wtp =>
      refine ⟨wtp.map (fun d => mkAccessory env.uuidGen d.name d.id), ?_⟩
      simp [getDevices, signIn, hl, hd, addAllDevices_state]
    | missingWtp => exact ⟨[], by simp [getDevices, signIn, hl, hd]⟩
    | httpError r => exact ⟨[], by simp [getDevices, signIn, hl, hd]⟩
    | transportError => exact ⟨[], by simp [getDevices, signIn, hl, hd]⟩
  | malformedBody => exact ⟨[], by simp [getDevices, signIn, hl]⟩
  | httpError r => exact ⟨[], by simp [getDevices, signIn, hl]⟩
  | transportError => exact ⟨[], by simp [getDevices, signIn, hl]⟩

/-! ## Claims -/

/-- C1 (code bug): the claim says that when `signIn` returns an absent
result, the subsequent destructuring of the session in `getDevices` and
`toggleLight` does not raise, and that no error propagates into those flows
as a thrown fault.  The code evaluated at the failing input shows otherwise:
when the login call fails (HTTP 401), `signIn` returns `undefined` and both
callers throw a TypeError from destructuring it, outside any `try` block. -/
theorem C1_signIn_failure_destructuring_raises :
    (getDevices ⟨.httpError "Unauthorized", .ok [], fun _ _ => .ok "", id⟩
        []).2.1 = some .typeError
    ∧ (toggleLight ⟨.httpError "Unauthorized", .ok [], fun _ _ => .ok "", id⟩
        ⟨"Lamp", "Lamp", 7⟩ true).1 = some .typeError :=
  ⟨rfl, rfl⟩

/-- C2: if the login call fails with an HTTP error (e.g. 401), the
device-directory GET is never issued, the reconciliation cycle leaves the
tracked list empty, no command PATCH is attempted, and exactly one console
output (the logged 401 response body) is produced. -/
theorem C2_login_failure_no_directory_call (r : String) (d : DevicesOutcome)
    (p : Int → Bool → PatchOutcome) (u : String → String)
    (accs : List Accessory) :
    (didFinishLaunching ⟨.httpError r, d, p, u⟩ accs).1 = []
    ∧ countE isGetCall
        (didFinishLaunching ⟨.httpError r, d, p, u⟩ accs).2.2 = 0
    ∧ countE isPatchCall
        (didFinishLaunching ⟨.httpError r, d, p, u⟩ accs).2.2 = 0
    ∧ ((didFinishLaunching ⟨.httpError r, d, p, u⟩ accs).2.2).filter
        isConsoleOut = [.consoleLog r] := by
  refine ⟨rfl, ?_, ?_, ?_⟩ <;>
    simp [didFinishLaunching, getDevices, signIn, removeAccessories, countE,
      isGetCall, isPatchCall, isConsoleOut]

/-- C2 witness at a concrete input. -/
theorem C2_login_failure_no_directory_call_witness :
    (didFinishLaunching
        ⟨.httpError "401", .ok [], fun _ _ => .ok "", id⟩ []).1 = []
    ∧ countE isGetCall (didFinishLaunching
        ⟨.httpError "401", .ok [], fun _ _ => .ok "", id⟩ []).2.2 = 0
    ∧ countE isPatchCall (didFinishLaunching
        ⟨.httpError "401", .ok [], fun _ _ => .ok "", id⟩ []).2.2 = 0
    ∧ ((didFinishLaunching
        ⟨.httpError "401", .ok [], fun _ _ => .ok "", id⟩ []).2.2).filter
        isConsoleOut = [.consoleLog "401"] :=
  C2_login_failure_no_directory_call "401" (.ok []) (fun _ _ => .ok "") id []

/-- C3: after a successful listing of the device sequence `D`, the tracked
list (repopulated from empty) is exactly the image of `D` under the accessory
constructor: it has `D.length` elements, the i-th carries `D[i].name` as
display name and `D[i].id` as `context.id`, so the reconciler introduces no
entry beyond one per device; the `[(1, Lamp), (2, Desk)]` scenario is
included as the final conjunct. -/
theorem C3_successful_listing_populates_exactly (s : String)
    (D : List RemoteDevice) (p : Int → Bool → PatchOutcome)
    (u : String → String) :
    (getDevices ⟨.ok s, .ok D, p, u⟩ []).1
        = D.map (fun d => mkAccessory u d.name d.id)
    ∧ (getDevices ⟨.ok s, .ok D, p, u⟩ []).1.length = D.length
    ∧ (getDevices ⟨.ok s, .ok D, p, u⟩ []).1.map Accessory.displayName
        = D.map RemoteDevice.name
    ∧ (getDevices ⟨.ok s, .ok D, p, u⟩ []).1.map Accessory.contextId
        = D.map RemoteDevice.id
    ∧ (getDevices ⟨.ok s, .ok [⟨1, "Lamp"⟩, ⟨2, "Desk"⟩], p, u⟩ []).1.map
        Accessory.displayName = ["Lamp", "Desk"]
    ∧ (getDevices ⟨.ok s, .ok [⟨1, "Lamp"⟩, ⟨2, "Desk"⟩], p, u⟩ []).1.map
        Accessory.contextId = [1, 2] := by
  have hstate : ∀ (D0 : List RemoteDevice),
      (getDevices ⟨.ok s, .ok D0, p, u⟩ []).1
        = D0.map (fun d => mkAccessory u d.name d.id) := by
    intro D0
    show (addAllDevices ⟨.ok s, .ok D0, p, u⟩ D0 []).1 = _
    rw [addAllDevices_state]
    rfl
  refine ⟨hstate D, ?_, ?_, ?_, ?_, ?_⟩ <;>
    simp [hstate, mkAccessory, List.map_map, Function.comp]

/-- C3 witness at the concrete scenario input. -/
theorem C3_successful_listing_populates_exactly_witness :
    (getDevices ⟨.ok "sess", .ok [⟨1, "Lamp"⟩, ⟨2, "Desk"⟩],
        fun _ _ => PatchOutcome.ok "", id⟩ []).1.map Accessory.displayName
      = ["Lamp", "Desk"] :=
  (C3_successful_listing_populates_exactly "sess" [⟨1, "Lamp"⟩, ⟨2, "Desk"⟩]
    (fun _ _ => .ok "") id).2.2.2.2.1

/-- C4 counterexample: the claim promises exactly one command PATCH for every
set-value event, regardless of remote outcomes; but when the login call
fails, `toggleLight` throws the destructuring TypeError before the PATCH, so
a toggle of the accessory with `context.id = 7` issues no command at all. -/
theorem C4_counterexample_login_failure_no_patch :
    ¬ countE isPatchCall
        (onSetEvent ⟨.httpError "Unauthorized", .ok [], fun _ _ => .ok "", id⟩
          ⟨"Lamp", "Lamp", 7⟩ true).2 = 1 := by
  decide

/-- C4 amended: provided the session acquisition succeeds, every set-value
event on an accessory with `context.id = n` issues exactly one command PATCH,
carrying device id `n` and the event's boolean value, regardless of whether
that PATCH succeeds or fails. -/
theorem C4_one_patch_per_event_when_signed_in (s : String)
    (d : DevicesOutcome) (p : Int → Bool → PatchOutcome)
    (u : String → String) (acc : Accessory) (value : Bool) :
    countE isPatchCall (onSetEvent ⟨.ok s, d, p, u⟩ acc value).2 = 1
    ∧ countE (isPatchTo acc.contextId value)
        (onSetEvent ⟨.ok s, d, p, u⟩ acc value).2 = 1 := by
  cases hp : p acc.contextId value <;>
    simp [onSetEvent, toggleLight, signIn, hp, countE, isPatchCall, isPatchTo]

/-- C4 witness at a concrete input. -/
theorem C4_one_patch_per_event_when_signed_in_witness :
    countE isPatchCall
      (onSetEvent ⟨.ok "sess", .ok [], fun _ _ => .httpError "boom", id⟩
        ⟨"Lamp", "Lamp", 7⟩ true).2 = 1 :=
  (C4_one_patch_per_event_when_signed_in "sess" (.ok [])
    (fun _ _ => .httpError "boom") id ⟨"Lamp", "Lamp", 7⟩ true).1

/-- C5: for every environment (including failing logins and failing command
calls), the set-value handler invokes the host framework's completion
callback exactly once and with no error argument; and when the session is
obtained and the command call fails (with or without a response), the error
is logged exactly once via `console.error` while the callback still carries
no error. -/
theorem C5_callback_unconditional (env : Env) (acc : Accessory)
    (value : Bool) :
    ((onSetEvent env acc value).2).filter isCallbackE = [.hbCallback none]
    ∧ (∀ s r, env.login = .ok s →
        env.patch acc.contextId value = .httpError r →
        countE isConsoleErr (onSetEvent env acc value).2 = 1)
    ∧ (∀ s, env.login = .ok s →
        env.patch acc.contextId value = .transportError →
        countE isConsoleErr (onSetEvent env acc value).2 = 1) := by
  refine ⟨?_, ?_, ?_⟩
  · cases hl : env.login <;>
      cases hp : env.patch acc.contextId value <;>
        simp [onSetEvent, toggleLight, signIn, hl, hp, isCallbackE]
  · intro s r hl hp
    simp [onSetEvent, toggleLight, signIn, hl, hp, countE, isConsoleErr]
  · intro s hl hp
    simp [onSetEvent, toggleLight, signIn, hl, hp, countE, isConsoleErr]

/-- C5 witness at a concrete input with a failing command call. -/
theorem C5_callback_unconditional_witness :
    ((onSetEvent ⟨.ok "sess", .ok [], fun _ _ => .httpError "boom", id⟩
        ⟨"Lamp", "Lamp", 1⟩ true).2).filter isCallbackE = [.hbCallback none]
    ∧ countE isConsoleErr
        (onSetEvent ⟨.ok "sess", .ok [], fun _ _ => .httpError "boom", id⟩
          ⟨"Lamp", "Lamp", 1⟩ true).2 = 1 :=
  ⟨(C5_callback_unconditional
      ⟨.ok "sess", .ok [], fun _ _ => .httpError "boom", id⟩
      ⟨"Lamp", "Lamp", 1⟩ true).1,
    (C5_callback_unconditional
      ⟨.ok "sess", .ok [], fun _ _ => .httpError "boom", id⟩
      ⟨"Lamp", "Lamp", 1⟩ true).2.1 "sess" "boom" rfl rfl⟩

/-- C6: every mutation of the tracked list is either the append of one
accessory (`configureAccessory`, also reached through `addAccessory`) or the
full clear of `removeAccessories`; repopulation only extends the list, and on
a successful listing the appended suffix is the devices in directory order. -/
theorem C6_mutations_append_or_clear (env : Env) (acc : Accessory)
    (accs : List Accessory) (name : String) (n : Int) :
    (configureAccessory acc accs).1 = accs ++ [acc]
    ∧ (addAccessory env name n accs).1
        = accs ++ [mkAccessory env.uuidGen name n]
    ∧ (removeAccessories accs).1 = []
    ∧ (∃ suffix, (getDevices env accs).1 = accs ++ suffix)
    ∧ (∀ s D p u, (getDevices ⟨.ok s, .ok D, p, u⟩ accs).1
        = accs ++ D.map (fun dv => mkAccessory u dv.name dv.id)) := by
  refine ⟨rfl, rfl, rfl, getDevices_state_extends env accs, ?_⟩
  intro s D p u
  show (addAllDevices ⟨.ok s, .ok D, p, u⟩ D accs).1 = _
  rw [addAllDevices_state]

/-- C7: the clear-then-repopulate cycle is idempotent — its resulting tracked
list never depends on the previous list, so running it twice against a fixed
environment produces exactly the list of a single run (same length, display
names, uuids and context ids in the same order). -/
theorem C7_clear_repopulate_idempotent (env : Env) (accs : List Accessory) :
    (didFinishLaunching env (didFinishLaunching env accs).1).1
      = (didFinishLaunching env accs).1 := rfl

/-- C8: on the start-up-complete signal the clear phase runs first and
unconditionally: the handler's trace begins with the unregistration of every
tracked accessory, before any repopulation event, and the repopulation always
proceeds from the emptied list — for every environment, including those where
discovery fails or reports no devices. -/
theorem C8_clear_runs_first_unconditionally (env : Env)
    (accs : List Accessory) :
    (didFinishLaunching env accs).2.2
        = Event.logInfo "Example platform didFinishLaunching"
          :: Event.logInfo "Removing all accessories"
          :: Event.unregisterAccs accs
          :: (getDevices env []).2.2
    ∧ (didFinishLaunching env accs).1 = (getDevices env []).1 :=
  ⟨rfl, rfl⟩

/-- C9: each call of `getDevices` and each call of `toggleLight` performs
exactly one login round trip — sessions are acquired fresh per call and never
reused, and a whole reconciliation cycle also logs in exactly once. -/
theorem C9_one_login_per_call (env : Env) (accs : List Accessory)
    (acc : Accessory) (value : Bool) :
    countE isLoginCall (getDevices env accs).2.2 = 1
    ∧ countE isLoginCall (toggleLight env acc value).2 = 1
    ∧ countE isLoginCall (didFinishLaunching env accs).2.2 = 1 := by
  have hg : ∀ (l : List Accessory),
      countE isLoginCall (getDevices env l).2.2 = 1 := by
    intro l
    cases hl : env.login with
    | ok s =>
      cases hd : env.devices <;>
        simp [getDevices, signIn, hl, hd, addAllDevices_no_login,
          isLoginCall]
    | malformedBody => simp [getDevices, signIn, hl, isLoginCall]
    | httpError r => simp [getDevices, signIn, hl, isLoginCall]
    | transportError => simp [getDevices, signIn, hl, isLoginCall]
  refine ⟨hg accs, ?_, ?_⟩
  · cases hl : env.login <;>
      cases hp : env.patch acc.contextId value <;>
        simp [toggleLight, signIn, hl, hp, isLoginCall]
  · simp [didFinishLaunching, removeAccessories, isLoginCall, hg]

/-- C10: in `signIn` and `getDevices` a caught failure is logged only when it
is an Axios error carrying a response; a transport failure without a
response, or the TypeError from a malformed body (missing `data.data.wtp`),
is swallowed silently — nothing logged, nothing thrown to the caller, no
accessory added — whereas `toggleLight` logs every caught command failure
unconditionally via `console.error`. -/
theorem C10_selective_failure_logging (r s : String) (d : DevicesOutcome)
    (p : Int → Bool → PatchOutcome) (u : String → String)
    (accs : List Accessory) (acc : Accessory) (value : Bool) :
    ((signIn ⟨.transportError, d, p, u⟩).2).filter isConsoleOut = []
    ∧ ((signIn ⟨.malformedBody, d, p, u⟩).2).filter isConsoleOut = []
    ∧ (signIn ⟨.transportError, d, p, u⟩).1 = none
    ∧ (signIn ⟨.malformedBody, d, p, u⟩).1 = none
    ∧ ((signIn ⟨.httpError r, d, p, u⟩).2).filter isConsoleOut
        = [.consoleLog r]
    ∧ ((getDevices ⟨.ok s, .transportError, p, u⟩ accs).2.2).filter
        isConsoleOut = []
    ∧ (getDevices ⟨.ok s, .transportError, p, u⟩ accs).1 = accs
    ∧ (getDevices ⟨.ok s, .transportError, p, u⟩ accs).2.1 = none
    ∧ ((getDevices ⟨.ok s, .missingWtp, p, u⟩ accs).2.2).filter
        isConsoleOut = []
    ∧ (getDevices ⟨.ok s, .missingWtp, p, u⟩ accs).1 = accs
    ∧ (getDevices ⟨.ok s, .missingWtp, p, u⟩ accs).2.1 = none
    ∧ countE isConsoleErr
        (toggleLight ⟨.ok s, d, fun _ _ => .httpError r, u⟩ acc value).2 = 1
    ∧ countE isConsoleErr
        (toggleLight ⟨.ok s, d, fun _ _ => .transportError, u⟩ acc value).2
        = 1 := by
  refine ⟨?_, ?_, rfl, rfl, ?_, ?_, rfl, rfl, ?_, rfl, rfl, ?_, ?_⟩ <;>
    simp [signIn, getDevices, toggleLight, countE, isConsoleOut, isConsoleErr]

end Sinum
